import Mathlib

/-!
# Verification of the invoice financial computation and document-transformation engine

Shallow embedding of `src/backend/app/crud/crud_invoice.py` and the
packing-list endpoint of `src/backend/app/api/endpoints/invoices.py`
(repository `dads-invoice-pro`).  Monetary values are modelled as exact
rationals; Python's `round(x, 2)` (round-half-to-even) is modelled by
`round2` below.
-/

namespace DadsInvoice

/-- Python's `round` to an integer: round half to even (banker's rounding). -/
def roundHalfEven (q : ℚ) : ℤ :=
  let n := ⌊q⌋
  let r := q - (n : ℚ)
  if r < 1/2 then n
  else if 1/2 < r then n + 1
  else if n % 2 = 0 then n else n + 1

/-- Python's `round(x, 2)`: round to two decimal places, half to even. -/
def round2 (q : ℚ) : ℚ := (roundHalfEven (q * 100) : ℚ) / 100

theorem roundHalfEven_nonneg {q : ℚ} (h : 0 ≤ q) : 0 ≤ roundHalfEven q := by
  unfold roundHalfEven
  have hn : (0 : ℤ) ≤ ⌊q⌋ := Int.floor_nonneg.mpr h
  dsimp only
  split_ifs <;> omega

theorem round2_nonneg {q : ℚ} (h : 0 ≤ q) : 0 ≤ round2 q := by
  unfold round2
  have : (0 : ℚ) ≤ (roundHalfEven (q * 100) : ℚ) := by
    exact_mod_cast roundHalfEven_nonneg (by positivity)
  positivity

theorem roundHalfEven_intCast (n : ℤ) : roundHalfEven (n : ℚ) = n := by
  unfold roundHalfEven
  norm_num

theorem round2_intCast (n : ℤ) : round2 (n : ℚ) = n := by
  unfold round2
  rw [show ((n : ℚ) * 100) = ((n * 100 : ℤ) : ℚ) by push_cast; ring,
    roundHalfEven_intCast]
  push_cast
  ring

theorem round2_zero : round2 0 = 0 := by
  simpa using round2_intCast 0

theorem round2_natCast (n : ℕ) : round2 (n : ℚ) = n := by
  simpa using round2_intCast (n : ℤ)

/-- Fact: `round2` fixes any rational with at most two decimal places. -/
theorem round2_hundredth (n : ℤ) : round2 ((n : ℚ) / 100) = (n : ℚ) / 100 := by
  unfold round2
  rw [show ((n : ℚ) / 100 * 100) = ((n : ℤ) : ℚ) by ring,
    roundHalfEven_intCast]

theorem round2_one : round2 1 = 1 := by
  simpa using round2_natCast 1

/-- Fact: `round2` fixes numeric literals (stated so that `simp`/`norm_num` can
evaluate `round2` applied to a literal). -/
theorem round2_ofNat (n : ℕ) [n.AtLeastTwo] :
    round2 (no_index (OfNat.ofNat n)) = OfNat.ofNat n := by
  simpa using round2_natCast n

/-- Sanity checks for the half-to-even behavior (Python `round`):
`round(2.5) = 2`, `round(3.5) = 4`, `round(-0.5) = 0`. -/
example : roundHalfEven (5/2) = 2 ∧ roundHalfEven (7/2) = 4 ∧
    roundHalfEven (-(1/2)) = 0 := by
  refine ⟨?_, ?_, ?_⟩ <;>
    · unfold roundHalfEven
      norm_num [Int.floor_eq_iff, show ((-1:ℤ):ℚ) = -1 by norm_num]

/-- Model of `schemas.invoice.PricePerTypeEnum` (`unit` / `carton`). -/
inductive PricePerType where
  | UNIT
  | CARTON
deriving DecidableEq, Repr

/-- Model of `schemas.invoice.InvoiceStatusEnum`. -/
inductive InvoiceStatus where
  | DRAFT
  | UNPAID
  | PAID
  | PARTIALLY_PAID
  | OVERDUE
  | CANCELLED
deriving DecidableEq, Repr

/-- Model of `schemas.invoice.InvoiceTypeEnum`.  The Pydantic enum in
`src/backend/app/schemas/invoice.py` lists `PRO_FORMA` and `COMMERCIAL`;
the `PACKING_LIST` label exists in the database enum
(migration `8e0faaba224e`) and in the AI tool layer, and is needed for the
spec-modelled packing-list generator. -/
inductive InvoiceType where
  | PRO_FORMA
  | COMMERCIAL
  | PACKING_LIST
deriving DecidableEq, Repr

/-- Model of `schemas.invoice.InvoiceItemCreate` (the Pydantic line-item payload).
UUIDs are modelled as `Nat`. -/
structure InvoiceItemCreate where
  item_description : String
  quantity_cartons : Option ℚ := none
  quantity_units : Option ℚ := none
  unit_type : Option String := some "pieces"
  price : ℚ
  price_per_type : PricePerType := PricePerType.UNIT
  currency : String := "USD"
  item_specific_comments : Option String := none
  item_id : Option Nat := none
deriving DecidableEq, Repr

/-- Model of `models.invoice.InvoiceItem` (the persisted ORM line item; only the
fields the verified operations read or write). -/
structure InvoiceItem where
  id : Nat
  item_description : String
  quantity_cartons : Option ℚ
  quantity_units : Option ℚ
  unit_type : Option String
  price : ℚ
  price_per_type : PricePerType
  currency : String
  item_specific_comments : Option String
  item_id : Option Nat
  line_total : ℚ
deriving DecidableEq, Repr

/-- Model of `_calculate_line_item_total` (crud_invoice.py lines 22–35):
`quantity = quantity_cartons` when `price_per_type == CARTON` and
`quantity_cartons is not None`; elif `quantity_units is not None` use it;
else `0`.  Returns `round(price * quantity, 2)`.
(`price or 0.0` equals `price` on rationals: `0.0 or 0.0` is `0.0`.) -/
def calculateLineItemTotal (item_data : InvoiceItemCreate) : ℚ :=
  let price := item_data.price
  let quantity : ℚ :=
    if item_data.price_per_type = PricePerType.CARTON ∧ item_data.quantity_cartons.isSome then
      item_data.quantity_cartons.getD 0
    else if item_data.quantity_units.isSome then
      item_data.quantity_units.getD 0
    else 0
  round2 (price * quantity)

/-- Result record of `calculate_invoice_financials`. -/
structure Financials where
  subtotal : ℚ
  tax_amount : ℚ
  discount_amount : ℚ
  total : ℚ
deriving DecidableEq, Repr

/-- Model of `calculate_invoice_financials` (crud_invoice.py lines 38–69).
The `invoice_currency` argument is unused by the computation and omitted. -/
def calculateInvoiceFinancials (line_items_data : List InvoiceItemCreate)
    (tax_percentage : Option ℚ) (discount_percentage : Option ℚ) : Financials :=
  let subtotal := round2 ((line_items_data.map calculateLineItemTotal).sum)
  let calculated_tax_amount : ℚ :=
    match tax_percentage with
    | some t => if 0 < t then round2 (subtotal * (t / 100)) else 0
    | none => 0
  let calculated_discount_amount : ℚ :=
    match discount_percentage with
    | some d => if 0 < d then round2 (subtotal * (d / 100)) else 0
    | none => 0
  let clamped_discount := min calculated_discount_amount subtotal
  let total := round2 (subtotal + calculated_tax_amount - clamped_discount)
  ⟨subtotal, calculated_tax_amount, clamped_discount, total⟩

/-- Model of `models.invoice.Invoice` (the ORM aggregate root; only the fields the
verified operations read or write).  Dates are modelled as day numbers. -/
structure Invoice where
  invoice_number : String
  invoice_date : Nat
  due_date : Option Nat
  invoice_type : InvoiceType
  status : InvoiceStatus
  currency : String
  subtotal_amount : ℚ
  tax_percentage : Option ℚ
  tax_amount : ℚ
  discount_percentage : Option ℚ
  discount_amount : ℚ
  total_amount : ℚ
  amount_paid : ℚ
  comments_notes : Option String
  line_items : List InvoiceItem
  organization_id : Nat
  customer_id : Nat
  user_id : Nat
deriving DecidableEq, Repr

/-- Model of `schemas.invoice.InvoiceCreate`.  `subtotal_amount`, `total_amount`,
`amount_paid` and `pdf_url` are `exclude=True` fields whose values never
reach the ORM row; they are omitted.  `tax_amount` and `discount_amount`
are readable attributes that `create_invoice_with_items` consults, so they
are kept (`tax_amount` defaults to `None`, `discount_amount` to `0.0` per
the Pydantic field defaults). -/
structure InvoiceCreate where
  invoice_number : String
  invoice_date : Nat
  due_date : Option Nat := none
  invoice_type : InvoiceType := InvoiceType.COMMERCIAL
  status : InvoiceStatus := InvoiceStatus.DRAFT
  currency : String := "USD"
  tax_percentage : Option ℚ := none
  tax_amount : Option ℚ := none
  discount_percentage : Option ℚ := none
  discount_amount : Option ℚ := some 0
  comments_notes : Option String := none
  organization_id : Nat
  customer_id : Nat
  line_items : List InvoiceItemCreate := []
deriving DecidableEq, Repr

/-- The ORM row built from an `InvoiceItemCreate` plus the computed
`line_total` (`InvoiceItemModel(**item_data, line_total=...)`).  Fresh ids
are not modelled; new rows get id `0`. -/
def itemCreateToOrm (c : InvoiceItemCreate) : InvoiceItem :=
  { id := 0
    item_description := c.item_description
    quantity_cartons := c.quantity_cartons
    quantity_units := c.quantity_units
    unit_type := c.unit_type
    price := c.price
    price_per_type := c.price_per_type
    currency := c.currency
    item_specific_comments := c.item_specific_comments
    item_id := c.item_id
    line_total := calculateLineItemTotal c }

/-- The `InvoiceItemCreate(...)` reconstruction of an ORM line item used
throughout `crud_invoice.py` to feed `calculate_invoice_financials`. -/
def ormToItemCreate (li : InvoiceItem) : InvoiceItemCreate :=
  { item_description := li.item_description
    quantity_cartons := li.quantity_cartons
    quantity_units := li.quantity_units
    unit_type := li.unit_type
    price := li.price
    price_per_type := li.price_per_type
    currency := li.currency
    item_specific_comments := li.item_specific_comments
    item_id := li.item_id }

/-- Model of `create_invoice_with_items` (crud_invoice.py lines 113–151), as the
committed ORM state.  `status` is taken from `invoice_in.status`
(`final_status`); `tax_amount`/`discount_amount` fall back to the
client-supplied value (`or 0.0`) when the corresponding percentage is
`None`; `amount_paid` is the DB default `0`. -/
def createInvoiceWithItems (invoice_in : InvoiceCreate) (owner_id : Nat) : Invoice :=
  let F := calculateInvoiceFinancials invoice_in.line_items
    invoice_in.tax_percentage invoice_in.discount_percentage
  { invoice_number := invoice_in.invoice_number
    invoice_date := invoice_in.invoice_date
    due_date := invoice_in.due_date
    invoice_type := invoice_in.invoice_type
    status := invoice_in.status
    currency := invoice_in.currency
    subtotal_amount := F.subtotal
    tax_percentage := invoice_in.tax_percentage
    tax_amount := if invoice_in.tax_percentage.isSome then F.tax_amount
      else invoice_in.tax_amount.getD 0
    discount_percentage := invoice_in.discount_percentage
    discount_amount := if invoice_in.discount_percentage.isSome then F.discount_amount
      else invoice_in.discount_amount.getD 0
    total_amount := F.total
    amount_paid := 0
    comments_notes := invoice_in.comments_notes
    line_items := invoice_in.line_items.map itemCreateToOrm
    organization_id := invoice_in.organization_id
    customer_id := invoice_in.customer_id
    user_id := owner_id }

/-- Model of `schemas.invoice.InvoiceUpdate` (partial patch).  An outer `none`
means the field was not in the payload (`exclude_unset`).  For the
nullable columns `due_date`, `tax_percentage`, `discount_percentage` and
`comments_notes`, an explicit `null` is a meaningful clear, hence the
double `Option`.  For `amount_paid`, `status` and `line_items` the code
treats an explicit `null` exactly like an absent field
(`update_data_header.get(...)` returns `None`; line 182 tests
`invoice_in.line_items is not None`), so a single `Option` suffices.
Explicit `null` for the non-nullable amount columns would be rejected by
the database and is not modelled. -/
structure InvoiceUpdate where
  invoice_number : Option String := none
  invoice_date : Option Nat := none
  due_date : Option (Option Nat) := none
  invoice_type : Option InvoiceType := none
  status : Option InvoiceStatus := none
  currency : Option String := none
  subtotal_amount : Option ℚ := none
  tax_percentage : Option (Option ℚ) := none
  tax_amount : Option ℚ := none
  discount_percentage : Option (Option ℚ) := none
  discount_amount : Option ℚ := none
  total_amount : Option ℚ := none
  amount_paid : Option ℚ := none
  comments_notes : Option (Option String) := none
  line_items : Option (List InvoiceItemCreate) := none
deriving DecidableEq, Repr

/-- The header-field pass of `update_invoice_with_items` (lines 174–177):
every field of the payload except `amount_paid`, `status` and
`line_items` is `setattr`'d onto the row. -/
def applyHeaderPatch (inv : Invoice) (patch : InvoiceUpdate) : Invoice :=
  { inv with
    invoice_number := patch.invoice_number.getD inv.invoice_number
    invoice_date := patch.invoice_date.getD inv.invoice_date
    due_date := patch.due_date.getD inv.due_date
    invoice_type := patch.invoice_type.getD inv.invoice_type
    currency := patch.currency.getD inv.currency
    subtotal_amount := patch.subtotal_amount.getD inv.subtotal_amount
    tax_percentage := patch.tax_percentage.getD inv.tax_percentage
    tax_amount := patch.tax_amount.getD inv.tax_amount
    discount_percentage := patch.discount_percentage.getD inv.discount_percentage
    discount_amount := patch.discount_amount.getD inv.discount_amount
    total_amount := patch.total_amount.getD inv.total_amount
    comments_notes := patch.comments_notes.getD inv.comments_notes }

/-- The status / amount-paid reconciliation tail of
`update_invoice_with_items` (lines 244–270), applied to the row after the
financials were written.  `original_status` is the status read before any
patching. -/
def reconcileStatusAndAmountPaid (original_status : InvoiceStatus) (inv : Invoice)
    (requested_amount_paid : Option ℚ) (requested_status : Option InvoiceStatus) :
    Invoice :=
  -- `if requested_status is not None:` block (lines 249–259)
  let inv1 :=
    match requested_status with
    | none => inv
    | some st =>
      let invS := { inv with status := st }
      if st = InvoiceStatus.PAID then
        { invS with amount_paid := requested_amount_paid.getD invS.total_amount }
      else if st = InvoiceStatus.UNPAID ∨ st = InvoiceStatus.OVERDUE ∨
          st = InvoiceStatus.CANCELLED then
        if original_status ≠ InvoiceStatus.PARTIALLY_PAID ∧
            requested_amount_paid = none then
          { invS with amount_paid := 0 }
        else
          match requested_amount_paid with
          | some a => { invS with amount_paid := a }
          | none => invS
      else if st = InvoiceStatus.DRAFT ∧ requested_amount_paid = none then
        { invS with amount_paid := 0 }
      else invS
  -- `if requested_amount_paid is not None:` block (lines 261–270)
  match requested_amount_paid with
  | none => inv1
  | some a =>
    let inv2 := { inv1 with amount_paid := a }
    match requested_status with
    | some _ => inv2
    | none =>
      if inv2.amount_paid ≥ inv2.total_amount ∧ 0 < inv2.total_amount then
        { inv2 with status := InvoiceStatus.PAID }
      else if 0 < inv2.amount_paid ∧ inv2.amount_paid < inv2.total_amount then
        { inv2 with status := InvoiceStatus.PARTIALLY_PAID }
      else if inv2.amount_paid ≤ 0 then
        if inv2.status ≠ InvoiceStatus.DRAFT ∧ inv2.status ≠ InvoiceStatus.CANCELLED then
          { inv2 with status := InvoiceStatus.UNPAID }
        else inv2
      else inv2

/-- The line items fed to the aggregator by `update_invoice_with_items`:
the freshly supplied payload items when `line_items` was provided
(line 202), else the existing ORM items re-read as `InvoiceItemCreate`
(lines 213–227).  The header patch never touches the collection. -/
def resolvedLineItems (db_invoice : Invoice) (invoice_in : InvoiceUpdate) :
    List InvoiceItemCreate :=
  match invoice_in.line_items with
  | some new_items => new_items
  | none => db_invoice.line_items.map ormToItemCreate

/-- The header / line-item / financial part of `update_invoice_with_items`
(crud_invoice.py lines 163–242): header fields are patched; the line-item
collection is replaced iff `line_items` was in the payload and not
`None`; financials are always recomputed from the resolved line-item set
with the row's current (possibly just-patched) percentages. -/
def updateFinancialPass (db_invoice : Invoice) (invoice_in : InvoiceUpdate) : Invoice :=
  let inv1 := applyHeaderPatch db_invoice invoice_in
  -- line-item replacement (lines 182–227)
  let inv2 :=
    match invoice_in.line_items with
    | some new_items => { inv1 with line_items := new_items.map itemCreateToOrm }
    | none => inv1
  let F := calculateInvoiceFinancials (resolvedLineItems db_invoice invoice_in)
    inv2.tax_percentage inv2.discount_percentage
  -- financial writeback (lines 238–242)
  { inv2 with
    subtotal_amount := F.subtotal
    tax_amount := if inv2.tax_percentage.isSome then F.tax_amount
      else invoice_in.tax_amount.getD inv2.tax_amount
    discount_amount := if inv2.discount_percentage.isSome then F.discount_amount
      else invoice_in.discount_amount.getD inv2.discount_amount
    total_amount := F.total }

/-- Model of `update_invoice_with_items` (crud_invoice.py lines 154–282), as the
committed ORM state: the financial pass above followed by the
status / amount-paid reconciliation, with `original_status` read before
any patching. -/
def updateInvoiceWithItems (db_invoice : Invoice) (invoice_in : InvoiceUpdate) : Invoice :=
  reconcileStatusAndAmountPaid db_invoice.status
    (updateFinancialPass db_invoice invoice_in)
    invoice_in.amount_paid invoice_in.status

/-- Errors raised by the CRUD layer (`ValueError` in the Python source,
mapped to 404/400 responses by the endpoints). -/
inductive CrudError where
  | notFound
  | invalidOperation
deriving DecidableEq, Repr

/-- Writes the recomputed financials of `calculate_invoice_financials`
onto a parent invoice row (the common
`parent_invoice.subtotal_amount = subtotal; ...` block). -/
def writeFinancials (inv : Invoice) (F : Financials) : Invoice :=
  { inv with
    subtotal_amount := F.subtotal
    tax_amount := F.tax_amount
    discount_amount := F.discount_amount
    total_amount := F.total }

/-- Model of `add_line_item_to_invoice` (crud_invoice.py lines 294–332).
`parent_invoice?` is the result of `get_invoice(db, invoice_id)`.
Returns the created item and the committed parent row; raising
`ValueError` (no parent) commits nothing. -/
def addLineItemToInvoice (parent_invoice? : Option Invoice)
    (item_in : InvoiceItemCreate) : Except CrudError (InvoiceItem × Invoice) :=
  match parent_invoice? with
  | none => Except.error CrudError.notFound
  | some parent_invoice =>
    let db_item := itemCreateToOrm item_in
    let refreshed := { parent_invoice with
      line_items := parent_invoice.line_items ++ [db_item] }
    let all_line_items_data := refreshed.line_items.map ormToItemCreate
    let F := calculateInvoiceFinancials all_line_items_data
      parent_invoice.tax_percentage parent_invoice.discount_percentage
    Except.ok (db_item, writeFinancials refreshed F)

/-- Model of `schemas.invoice.InvoiceItemUpdate` (partial line-item patch; outer
`none` = absent from payload, inner `none` = explicit null clearing a
nullable column). -/
structure InvoiceItemUpdate where
  item_description : Option String := none
  quantity_cartons : Option (Option ℚ) := none
  quantity_units : Option (Option ℚ) := none
  unit_type : Option (Option String) := none
  price : Option ℚ := none
  price_per_type : Option PricePerType := none
  currency : Option String := none
  item_specific_comments : Option (Option String) := none
  item_id : Option (Option Nat) := none
deriving DecidableEq, Repr

/-- The `setattr` loop of `update_invoice_line_item` (line 340). -/
def applyItemPatch (li : InvoiceItem) (u : InvoiceItemUpdate) : InvoiceItem :=
  { li with
    item_description := u.item_description.getD li.item_description
    quantity_cartons := u.quantity_cartons.getD li.quantity_cartons
    quantity_units := u.quantity_units.getD li.quantity_units
    unit_type := u.unit_type.getD li.unit_type
    price := u.price.getD li.price
    price_per_type := u.price_per_type.getD li.price_per_type
    currency := u.currency.getD li.currency
    item_specific_comments := u.item_specific_comments.getD li.item_specific_comments
    item_id := u.item_id.getD li.item_id }

/-- Model of `update_invoice_line_item` (crud_invoice.py lines 334–377).
`parent_invoice?` is the result of `get_invoice(db, db_line_item.invoice_id)`;
its loaded collection reflects the in-session mutation of the item.
Raising `ValueError` (no parent, line 351) happens before the commit, so
nothing is committed in that case. -/
def updateInvoiceLineItem (parent_invoice? : Option Invoice)
    (db_line_item : InvoiceItem) (item_in : InvoiceItemUpdate) :
    Except CrudError (InvoiceItem × Invoice) :=
  let patched := applyItemPatch db_line_item item_in
  let new_item := { patched with
    line_total := calculateLineItemTotal (ormToItemCreate patched) }
  match parent_invoice? with
  | none => Except.error CrudError.notFound
  | some parent_invoice =>
    let parent1 := { parent_invoice with
      line_items := parent_invoice.line_items.map
        (fun x => if x.id = db_line_item.id then new_item else x) }
    let all_line_items_data := parent1.line_items.map ormToItemCreate
    let F := calculateInvoiceFinancials all_line_items_data
      parent_invoice.tax_percentage parent_invoice.discount_percentage
    Except.ok (new_item, writeFinancials parent1 F)

/-- Committed outcome of `delete_invoice_line_item`. -/
structure DeleteLineItemResult where
  returned_item : InvoiceItem
  parent_after : Option Invoice
deriving DecidableEq, Repr

/-- Model of `delete_invoice_line_item` (crud_invoice.py lines 379–415).
When the parent invoice is not found (lines 386–389) the function
**commits the deletion and returns the item normally** — it does not
raise.  Otherwise it recomputes the parent financials over the remaining
items. -/
def deleteInvoiceLineItem (parent_invoice? : Option Invoice)
    (db_line_item : InvoiceItem) : Except CrudError DeleteLineItemResult :=
  match parent_invoice? with
  | none => Except.ok ⟨db_line_item, none⟩
  | some parent_invoice =>
    let remaining := parent_invoice.line_items.filter
      (fun x => x.id ≠ db_line_item.id)
    let all_line_items_data := remaining.map ormToItemCreate
    let F := calculateInvoiceFinancials all_line_items_data
      parent_invoice.tax_percentage parent_invoice.discount_percentage
    Except.ok ⟨db_line_item, some (writeFinancials
      { parent_invoice with line_items := remaining } F)⟩

/-- Model of `transform_pro_forma_to_commercial` (crud_invoice.py lines 418–455).
`today` stands for `date.today()`.  Returns the pair
(source Pro Forma after the call, new Commercial invoice): the source row
is never written to, so it is returned unchanged.  The number fallback
mirrors Python's `new_invoice_number or f"{...}-COMM"`, under which an
empty string is falsy. -/
def transformProFormaToCommercial (pro_forma_invoice : Invoice)
    (new_invoice_number : Option String) (today : Nat) :
    Except CrudError (Invoice × Invoice) :=
  if pro_forma_invoice.invoice_type ≠ InvoiceType.PRO_FORMA then
    Except.error CrudError.invalidOperation
  else
    let new_line_items_create_data := pro_forma_invoice.line_items.map ormToItemCreate
    let final_new_invoice_number :=
      match new_invoice_number with
      | some s => if s = "" then pro_forma_invoice.invoice_number ++ "-COMM" else s
      | none => pro_forma_invoice.invoice_number ++ "-COMM"
    let commercial_invoice_create_data : InvoiceCreate :=
      { invoice_number := final_new_invoice_number
        invoice_date := today
        due_date := pro_forma_invoice.due_date
        invoice_type := InvoiceType.COMMERCIAL
        status := InvoiceStatus.DRAFT
        currency := pro_forma_invoice.currency
        organization_id := pro_forma_invoice.organization_id
        customer_id := pro_forma_invoice.customer_id
        tax_percentage := pro_forma_invoice.tax_percentage
        discount_percentage := pro_forma_invoice.discount_percentage
        comments_notes := pro_forma_invoice.comments_notes
        line_items := new_line_items_create_data }
    Except.ok (pro_forma_invoice,
      createInvoiceWithItems commercial_invoice_create_data pro_forma_invoice.user_id)

/-- Modelled from the spec: `crud.invoice.create_packing_list_from_commercial`
is invoked by `generate_packing_list_from_invoice`
(api/endpoints/invoices.py lines 364–368) and by the AI orchestrator, but
its definition is absent from the repository sources.  Per spec §4.5:
same copy semantics as the Pro-Forma transform except `price` is forced
to `0` for every line item, `invoiceType = PACKING_LIST`, financial
fields zeroed in the creation request (percentages and amounts `0`), and
the number falls back to `PL-<original commercial invoice number>`. -/
def createPackingListFromCommercial (commercial_invoice : Invoice)
    (new_packing_list_number : Option String) (today : Nat) : Invoice :=
  let zero_priced_items := commercial_invoice.line_items.map
    (fun li => { ormToItemCreate li with price := 0 })
  let number := new_packing_list_number.getD
    ("PL-" ++ commercial_invoice.invoice_number)
  createInvoiceWithItems
    { invoice_number := number
      invoice_date := today
      due_date := commercial_invoice.due_date
      invoice_type := InvoiceType.PACKING_LIST
      status := InvoiceStatus.DRAFT
      currency := commercial_invoice.currency
      tax_percentage := some 0
      tax_amount := some 0
      discount_percentage := some 0
      discount_amount := some 0
      comments_notes := commercial_invoice.comments_notes
      organization_id := commercial_invoice.organization_id
      customer_id := commercial_invoice.customer_id
      line_items := zero_priced_items } commercial_invoice.user_id

/-- Model of `generate_packing_list_from_invoice`
(api/endpoints/invoices.py lines 336–372), restricted to the logic the
claims concern: the 404 on a missing invoice and the 400 guard
`commercial_invoice.invoice_type != COMMERCIAL`, then delegation to
`create_packing_list_from_commercial` (auth checks omitted). -/
def generatePackingListFromInvoice (commercial_invoice? : Option Invoice)
    (new_packing_list_number : Option String) (today : Nat) :
    Except CrudError Invoice :=
  match commercial_invoice? with
  | none => Except.error CrudError.notFound
  | some commercial_invoice =>
    if commercial_invoice.invoice_type ≠ InvoiceType.COMMERCIAL then
      Except.error CrudError.invalidOperation
    else
      Except.ok (createPackingListFromCommercial commercial_invoice
        new_packing_list_number today)

/-! ## Helper lemmas -/

theorem fin_subtotal (items : List InvoiceItemCreate) (tp dp : Option ℚ) :
    (calculateInvoiceFinancials items tp dp).subtotal =
      round2 ((items.map calculateLineItemTotal).sum) := by
  cases tp <;> cases dp <;> rfl

theorem fin_tax_none (items : List InvoiceItemCreate) (dp : Option ℚ) :
    (calculateInvoiceFinancials items none dp).tax_amount = 0 := by
  cases dp <;> rfl

theorem fin_tax_some (items : List InvoiceItemCreate) (t : ℚ) (dp : Option ℚ) :
    (calculateInvoiceFinancials items (some t) dp).tax_amount =
      if 0 < t then
        round2 ((calculateInvoiceFinancials items (some t) dp).subtotal * (t / 100))
      else 0 := by
  cases dp <;> rfl

theorem fin_disc_none (items : List InvoiceItemCreate) (tp : Option ℚ) :
    (calculateInvoiceFinancials items tp none).discount_amount =
      min 0 (calculateInvoiceFinancials items tp none).subtotal := by
  cases tp <;> rfl

theorem fin_disc_some (items : List InvoiceItemCreate) (tp : Option ℚ) (d : ℚ) :
    (calculateInvoiceFinancials items tp (some d)).discount_amount =
      min (if 0 < d then
          round2 ((calculateInvoiceFinancials items tp (some d)).subtotal * (d / 100))
        else 0)
        (calculateInvoiceFinancials items tp (some d)).subtotal := by
  cases tp <;> rfl

theorem fin_total (items : List InvoiceItemCreate) (tp dp : Option ℚ) :
    (calculateInvoiceFinancials items tp dp).total =
      round2 ((calculateInvoiceFinancials items tp dp).subtotal
        + (calculateInvoiceFinancials items tp dp).tax_amount
        - (calculateInvoiceFinancials items tp dp).discount_amount) := by
  cases tp <;> cases dp <;> rfl

theorem calculateLineItemTotal_nonneg (it : InvoiceItemCreate)
    (hp : 0 ≤ it.price) (hc : ∀ q ∈ it.quantity_cartons, 0 ≤ q)
    (hu : ∀ q ∈ it.quantity_units, 0 ≤ q) :
    0 ≤ calculateLineItemTotal it := by
  unfold calculateLineItemTotal
  apply round2_nonneg
  apply mul_nonneg hp
  split_ifs with h1 h2
  · rcases h1 with ⟨-, hs⟩
    cases hq : it.quantity_cartons with
    | none => rw [hq] at hs; simp at hs
    | some q => simpa [hq] using hc q (by rw [hq]; exact rfl)
  · cases hq : it.quantity_units with
    | none => rw [hq] at h2; simp at h2
    | some q => simpa [hq] using hu q (by rw [hq]; exact rfl)
  · exact le_refl 0

/-! ## Claims -/

/-- Claim C1: (counterexample).  The claim asserts a fallback: for an item
with `unitBasis = UNIT`, `quantityUnits` absent and `quantityCartons`
present, `computeLineTotal` should return
`round(price × quantityCartons, 2)`.  The code has no such fallback
(`_calculate_line_item_total` lines 26–31): on this item with price 2 and
5 cartons it returns 0, while the claim demands
`round(2 × 5, 2) = 10`. -/
theorem C1_counterexample :
    calculateLineItemTotal
      { item_description := "widget", quantity_cartons := some 5,
        quantity_units := none, unit_type := none, price := 2,
        price_per_type := PricePerType.UNIT, currency := "USD",
        item_specific_comments := none, item_id := none } = 0 ∧
    round2 (2 * 5) = 10 := by
  constructor
  · simp [calculateLineItemTotal, round2_zero]
  · rw [show (2 * 5 : ℚ) = ((10 : ℤ) : ℚ) by norm_num, round2_intCast]
    norm_num

/-- Claim C1: (amended).  `computeLineTotal` returns
`round(price × effectiveQuantity, 2)` where `effectiveQuantity` is
`quantityCartons` when `unitBasis = CARTON` and `quantityCartons` is
present; else `quantityUnits` when present; else `0`.  There is **no**
fallback from `unitBasis = UNIT` to `quantityCartons`: when
`quantityUnits` is absent and the first rule does not fire, the result is
`0` even if `quantityCartons` is present. -/
theorem C1_amended_line_total (item : InvoiceItemCreate) :
    (∀ qc, item.price_per_type = PricePerType.CARTON →
      item.quantity_cartons = some qc →
      calculateLineItemTotal item = round2 (item.price * qc)) ∧
    (∀ qu, (item.price_per_type = PricePerType.UNIT ∨ item.quantity_cartons = none) →
      item.quantity_units = some qu →
      calculateLineItemTotal item = round2 (item.price * qu)) ∧
    (item.quantity_units = none →
      (item.price_per_type = PricePerType.UNIT ∨ item.quantity_cartons = none) →
      calculateLineItemTotal item = 0) := by
  refine ⟨?_, ?_, ?_⟩
  · intro qc hb hc
    unfold calculateLineItemTotal
    rw [if_pos ⟨hb, by simp [hc]⟩, hc]
    rfl
  · intro qu hfirst hu
    unfold calculateLineItemTotal
    have hneg : ¬(item.price_per_type = PricePerType.CARTON ∧
        item.quantity_cartons.isSome) := by
      rcases hfirst with h | h
      · rintro ⟨hc, -⟩; rw [h] at hc; cases hc
      · rintro ⟨-, hs⟩; rw [h] at hs; simp at hs
    rw [if_neg hneg, if_pos (by simp [hu]), hu]
    rfl
  · intro hu hfirst
    unfold calculateLineItemTotal
    have hneg : ¬(item.price_per_type = PricePerType.CARTON ∧
        item.quantity_cartons.isSome) := by
      rcases hfirst with h | h
      · rintro ⟨hc, -⟩; rw [h] at hc; cases hc
      · rintro ⟨-, hs⟩; rw [h] at hs; simp at hs
    rw [if_neg hneg, if_neg (by simp [hu])]
    show round2 (item.price * 0) = 0
    rw [mul_zero, round2_zero]

/-- Witness for C1 (amended): a CARTON-basis item with price 5 and
4 cartons evaluates to 20. -/
theorem C1_amended_line_total_witness :
    calculateLineItemTotal
      { item_description := "widget", quantity_cartons := some 4,
        quantity_units := none, unit_type := none, price := 5,
        price_per_type := PricePerType.CARTON, currency := "USD",
        item_specific_comments := none, item_id := none } = 20 := by
  have h := (C1_amended_line_total
    { item_description := "widget", quantity_cartons := some 4,
      quantity_units := none, unit_type := none, price := 5,
      price_per_type := PricePerType.CARTON, currency := "USD",
      item_specific_comments := none, item_id := none }).1 4 rfl rfl
  rw [h, show ((5 : ℚ) * 4) = ((20 : ℤ) : ℚ) by norm_num, round2_intCast]
  norm_num

/-- Claim C2:.  `calculate_invoice_financials` returns
`subtotal = round(sum of line totals, 2)`;
`taxAmount = round(subtotal*tax/100, 2)` when `taxPercentage > 0`, else 0;
`discountAmount` analogously, clamped to `subtotal` via `min`; and
`total = round(subtotal + taxAmount - discountAmount, 2)`.  With
non-negative prices, quantities and tax percentage the total is
non-negative, and an empty line-item list yields subtotal 0 and
total 0. -/
theorem C2_invoice_financials (items : List InvoiceItemCreate)
    (tax_percentage discount_percentage : Option ℚ) (F : Financials)
    (hF : F = calculateInvoiceFinancials items tax_percentage discount_percentage) :
    F.subtotal = round2 ((items.map calculateLineItemTotal).sum) ∧
    (∀ t, tax_percentage = some t → 0 < t →
      F.tax_amount = round2 (F.subtotal * (t / 100))) ∧
    (∀ t, tax_percentage = some t → t ≤ 0 → F.tax_amount = 0) ∧
    (tax_percentage = none → F.tax_amount = 0) ∧
    (∀ d, discount_percentage = some d → 0 < d →
      F.discount_amount = min (round2 (F.subtotal * (d / 100))) F.subtotal) ∧
    (∀ d, discount_percentage = some d → d ≤ 0 →
      F.discount_amount = min 0 F.subtotal) ∧
    (discount_percentage = none → F.discount_amount = min 0 F.subtotal) ∧
    F.discount_amount ≤ F.subtotal ∧
    F.total = round2 (F.subtotal + F.tax_amount - F.discount_amount) ∧
    ((∀ it ∈ items, 0 ≤ it.price ∧ (∀ q ∈ it.quantity_cartons, 0 ≤ q) ∧
        (∀ q ∈ it.quantity_units, 0 ≤ q)) →
      (∀ t ∈ tax_percentage, 0 ≤ t) → 0 ≤ F.total) ∧
    (items = [] → F.subtotal = 0 ∧ F.total = 0) := by
  subst hF
  have hS0 : ∀ (hitems : ∀ it ∈ items, 0 ≤ it.price ∧
      (∀ q ∈ it.quantity_cartons, 0 ≤ q) ∧ (∀ q ∈ it.quantity_units, 0 ≤ q)),
      0 ≤ (calculateInvoiceFinancials items tax_percentage discount_percentage).subtotal := by
    intro hitems
    rw [fin_subtotal]
    apply round2_nonneg
    apply List.sum_nonneg
    intro x hx
    rcases List.mem_map.mp hx with ⟨it, hit, rfl⟩
    exact calculateLineItemTotal_nonneg it (hitems it hit).1
      (hitems it hit).2.1 (hitems it hit).2.2
  have hDle : (calculateInvoiceFinancials items tax_percentage discount_percentage).discount_amount
      ≤ (calculateInvoiceFinancials items tax_percentage discount_percentage).subtotal := by
    cases discount_percentage with
    | none => rw [fin_disc_none]; exact min_le_right _ _
    | some d => rw [fin_disc_some]; exact min_le_right _ _
  refine ⟨fin_subtotal items _ _, ?_, ?_, ?_, ?_, ?_, ?_, hDle, fin_total items _ _, ?_, ?_⟩
  · rintro t rfl hpos
    rw [fin_tax_some, if_pos hpos]
  · rintro t rfl hnonpos
    rw [fin_tax_some, if_neg (not_lt.mpr hnonpos)]
  · rintro rfl
    exact fin_tax_none items _
  · rintro d rfl hpos
    rw [fin_disc_some, if_pos hpos]
  · rintro d rfl hnonpos
    rw [fin_disc_some, if_neg (not_lt.mpr hnonpos)]
  · rintro rfl
    exact fin_disc_none items _
  · intro hitems htp
    rw [fin_total]
    apply round2_nonneg
    have hS := hS0 hitems
    have hT : 0 ≤ (calculateInvoiceFinancials items tax_percentage discount_percentage).tax_amount := by
      cases tax_percentage with
      | none => rw [fin_tax_none]
      | some t =>
        rw [fin_tax_some]
        split_ifs with h
        · exact round2_nonneg (mul_nonneg hS (by
            have := htp t rfl
            positivity))
        · exact le_refl 0
    linarith
  · rintro rfl
    have hS : (calculateInvoiceFinancials ([] : List InvoiceItemCreate)
        tax_percentage discount_percentage).subtotal = 0 := by
      rw [fin_subtotal]; simp [round2_zero]
    refine ⟨hS, ?_⟩
    have hT : (calculateInvoiceFinancials ([] : List InvoiceItemCreate)
        tax_percentage discount_percentage).tax_amount = 0 := by
      cases tax_percentage with
      | none => rw [fin_tax_none]
      | some t =>
        rw [fin_tax_some, hS]
        split_ifs with h
        · rw [zero_mul, round2_zero]
        · rfl
    have hD : (calculateInvoiceFinancials ([] : List InvoiceItemCreate)
        tax_percentage discount_percentage).discount_amount = 0 := by
      cases discount_percentage with
      | none => rw [fin_disc_none, hS]; simp
      | some d =>
        rw [fin_disc_some, hS]
        split_ifs with h
        · rw [zero_mul, round2_zero]; simp
        · simp
    rw [fin_total, hS, hT, hD]
    simp [round2_zero]

/-- Two concrete line items: 3 units at 10 each and 10 cartons at 7
per carton (spec §8 scenario shape). -/
def demoItems : List InvoiceItemCreate :=
  [ { item_description := "A", quantity_cartons := none, quantity_units := some 3,
      unit_type := some "pieces", price := 10, price_per_type := PricePerType.UNIT,
      currency := "USD", item_specific_comments := none, item_id := none },
    { item_description := "B", quantity_cartons := some 10, quantity_units := none,
      unit_type := some "pieces", price := 7, price_per_type := PricePerType.CARTON,
      currency := "USD", item_specific_comments := none, item_id := none } ]

/-- Witness for C2: on `demoItems` with 10% tax and 50% discount the
total is non-negative (via the theorem), and in fact the financials
evaluate to subtotal 100, tax 10, discount 50, total 60. -/
theorem C2_invoice_financials_witness :
    0 ≤ (calculateInvoiceFinancials demoItems (some 10) (some 50)).total ∧
    calculateInvoiceFinancials demoItems (some 10) (some 50) =
      ⟨100, 10, 50, 60⟩ := by
  constructor
  · exact (C2_invoice_financials demoItems (some 10) (some 50) _
      rfl).2.2.2.2.2.2.2.2.2.1
      (by
        intro it hit
        fin_cases hit <;>
          refine ⟨by norm_num, ?_, ?_⟩ <;>
          · intro q hq
            simp at hq
            try subst hq
            try norm_num)
      (by
        intro t ht
        simp at ht
        subst ht
        norm_num)
  · norm_num [calculateInvoiceFinancials, demoItems, calculateLineItemTotal,
      round2_ofNat, round2_zero, round2_one, Financials.mk.injEq, min_def]

theorem reconcile_preserves (os : InvoiceStatus) (inv : Invoice) (rap : Option ℚ)
    (rs : Option InvoiceStatus) :
    (reconcileStatusAndAmountPaid os inv rap rs).total_amount = inv.total_amount ∧
    (reconcileStatusAndAmountPaid os inv rap rs).subtotal_amount = inv.subtotal_amount ∧
    (reconcileStatusAndAmountPaid os inv rap rs).tax_amount = inv.tax_amount ∧
    (reconcileStatusAndAmountPaid os inv rap rs).discount_amount = inv.discount_amount ∧
    (reconcileStatusAndAmountPaid os inv rap rs).line_items = inv.line_items ∧
    (reconcileStatusAndAmountPaid os inv rap rs).tax_percentage = inv.tax_percentage ∧
    (reconcileStatusAndAmountPaid os inv rap rs).discount_percentage = inv.discount_percentage := by
  unfold reconcileStatusAndAmountPaid
  cases rs <;> cases rap <;> dsimp only <;>
    first
      | exact ⟨rfl, rfl, rfl, rfl, rfl, rfl, rfl⟩
      | (split_ifs <;> exact ⟨rfl, rfl, rfl, rfl, rfl, rfl, rfl⟩)

/-- Status after the amount-driven inference path
(`requested_amount_paid` provided, no `requested_status`). -/
theorem reconcile_infer_status (os : InvoiceStatus) (inv : Invoice) (a : ℚ) :
    (reconcileStatusAndAmountPaid os inv (some a) none).status =
      if inv.total_amount ≤ a ∧ 0 < inv.total_amount then InvoiceStatus.PAID
      else if 0 < a ∧ a < inv.total_amount then InvoiceStatus.PARTIALLY_PAID
      else if a ≤ 0 then
        if inv.status ≠ InvoiceStatus.DRAFT ∧ inv.status ≠ InvoiceStatus.CANCELLED then
          InvoiceStatus.UNPAID
        else inv.status
      else inv.status := by
  unfold reconcileStatusAndAmountPaid
  simp only [ge_iff_le]
  split_ifs <;> rfl

theorem updateFinancialPass_status (inv : Invoice) (p : InvoiceUpdate) :
    (updateFinancialPass inv p).status = inv.status := by
  rcases h : p.line_items with _ | items <;>
    simp [updateFinancialPass, applyHeaderPatch, h]

/-- Claim C3:.  When an update supplies `amount_paid` without an explicit
`status`, the resulting status is inferred from the (recomputed) total:
`amountPaid ≥ totalAmount ∧ totalAmount > 0` gives PAID;
`0 < amountPaid < totalAmount` gives PARTIALLY_PAID; `amountPaid ≤ 0`
gives UNPAID unless the pre-update status was DRAFT or CANCELLED, which
are left unchanged. -/
theorem C3_status_inference (inv : Invoice) (patch : InvoiceUpdate) (a : ℚ)
    (hap : patch.amount_paid = some a) (hst : patch.status = none) :
    ((updateInvoiceWithItems inv patch).total_amount ≤ a ∧
        0 < (updateInvoiceWithItems inv patch).total_amount →
      (updateInvoiceWithItems inv patch).status = InvoiceStatus.PAID) ∧
    (0 < a ∧ a < (updateInvoiceWithItems inv patch).total_amount →
      (updateInvoiceWithItems inv patch).status = InvoiceStatus.PARTIALLY_PAID) ∧
    (a ≤ 0 →
      ((inv.status = InvoiceStatus.DRAFT ∨ inv.status = InvoiceStatus.CANCELLED) →
        (updateInvoiceWithItems inv patch).status = inv.status) ∧
      (inv.status ≠ InvoiceStatus.DRAFT → inv.status ≠ InvoiceStatus.CANCELLED →
        (updateInvoiceWithItems inv patch).status = InvoiceStatus.UNPAID)) := by
  have hr : updateInvoiceWithItems inv patch =
      reconcileStatusAndAmountPaid inv.status (updateFinancialPass inv patch)
        (some a) none := by
    unfold updateInvoiceWithItems
    rw [hap, hst]
  have htot : (updateInvoiceWithItems inv patch).total_amount =
      (updateFinancialPass inv patch).total_amount := by
    rw [hr]
    exact (reconcile_preserves _ _ _ _).1
  have hstat : (updateInvoiceWithItems inv patch).status =
      (if (updateFinancialPass inv patch).total_amount ≤ a ∧
          0 < (updateFinancialPass inv patch).total_amount then InvoiceStatus.PAID
        else if 0 < a ∧ a < (updateFinancialPass inv patch).total_amount then
          InvoiceStatus.PARTIALLY_PAID
        else if a ≤ 0 then
          if inv.status ≠ InvoiceStatus.DRAFT ∧ inv.status ≠ InvoiceStatus.CANCELLED then
            InvoiceStatus.UNPAID
          else inv.status
        else inv.status) := by
    rw [hr, reconcile_infer_status, updateFinancialPass_status]
  rw [htot] at *
  refine ⟨?_, ?_, ?_⟩
  · rintro ⟨h1, h2⟩
    rw [hstat, if_pos ⟨h1, h2⟩]
  · rintro ⟨h1, h2⟩
    rw [hstat, if_neg (by rintro ⟨x, y⟩; linarith), if_pos ⟨h1, h2⟩]
  · intro h0
    have hn1 : ¬((updateFinancialPass inv patch).total_amount ≤ a ∧
        0 < (updateFinancialPass inv patch).total_amount) := by
      rintro ⟨x, y⟩; linarith
    have hn2 : ¬(0 < a ∧ a < (updateFinancialPass inv patch).total_amount) := by
      rintro ⟨x, -⟩; linarith
    constructor
    · intro hdc
      rw [hstat, if_neg hn1, if_neg hn2, if_pos h0, if_neg (by
        rintro ⟨hd, hc⟩
        rcases hdc with h | h
        · exact hd h
        · exact hc h)]
    · intro hd hc
      rw [hstat, if_neg hn1, if_neg hn2, if_pos h0, if_pos ⟨hd, hc⟩]

/-- A persisted line item: one unit at price 100 (line total 100). -/
def baseItem : InvoiceItem :=
  { id := 1, item_description := "Widget", quantity_cartons := none,
    quantity_units := some 1, unit_type := some "pieces", price := 100,
    price_per_type := PricePerType.UNIT, currency := "USD",
    item_specific_comments := none, item_id := none, line_total := 100 }

/-- A persisted invoice holding `baseItem`; no tax, no discount,
total 100, unpaid. -/
def baseInvoice : Invoice :=
  { invoice_number := "INV-1", invoice_date := 100, due_date := none,
    invoice_type := InvoiceType.COMMERCIAL, status := InvoiceStatus.UNPAID,
    currency := "USD", subtotal_amount := 100, tax_percentage := none,
    tax_amount := 0, discount_percentage := none, discount_amount := 0,
    total_amount := 100, amount_paid := 0, comments_notes := none,
    line_items := [baseItem], organization_id := 1, customer_id := 1,
    user_id := 1 }

theorem baseInvoice_financial_pass_total (p : InvoiceUpdate)
    (hli : p.line_items = none) (htp : p.tax_percentage = none)
    (hdp : p.discount_percentage = none) :
    (updateFinancialPass baseInvoice p).total_amount = 100 := by
  norm_num [updateFinancialPass, applyHeaderPatch, resolvedLineItems, hli, htp, hdp,
    calculateInvoiceFinancials, calculateLineItemTotal, ormToItemCreate,
    baseInvoice, baseItem, round2_ofNat, round2_zero, round2_one, min_def]

/-- Witness for C3: paying 40 against `baseInvoice` (total 100) with no
explicit status yields PARTIALLY_PAID. -/
theorem C3_status_inference_witness :
    (updateInvoiceWithItems baseInvoice { amount_paid := some 40 }).status =
      InvoiceStatus.PARTIALLY_PAID := by
  have htot : (updateInvoiceWithItems baseInvoice
      { amount_paid := some 40 }).total_amount = 100 := by
    have h1 : (updateInvoiceWithItems baseInvoice
        { amount_paid := some 40 }).total_amount =
        (updateFinancialPass baseInvoice { amount_paid := some 40 }).total_amount := by
      unfold updateInvoiceWithItems
      exact (reconcile_preserves _ _ _ _).1
    rw [h1, baseInvoice_financial_pass_total _ rfl rfl rfl]
  exact (C3_status_inference baseInvoice { amount_paid := some 40 } 40 rfl rfl).2.1
    ⟨by norm_num, by rw [htot]; norm_num⟩

/-- Claim C4: (counterexample).  The claim asserts `amountPaid` is clamped to
`totalAmount` when an update leaves the invoice PAID.  No clamping exists
in `update_invoice_with_items`: updating `baseInvoice` (recomputed total
100) with an explicit `status = PAID` and `amount_paid = 200` commits a
PAID invoice whose `amount_paid` (200) strictly exceeds its
`total_amount` (100). -/
theorem C4_counterexample :
    (updateInvoiceWithItems baseInvoice
      { status := some InvoiceStatus.PAID, amount_paid := some 200 }).status =
        InvoiceStatus.PAID ∧
    (updateInvoiceWithItems baseInvoice
      { status := some InvoiceStatus.PAID, amount_paid := some 200 }).total_amount = 100 ∧
    (updateInvoiceWithItems baseInvoice
      { status := some InvoiceStatus.PAID, amount_paid := some 200 }).amount_paid = 200 ∧
    (updateInvoiceWithItems baseInvoice
      { status := some InvoiceStatus.PAID, amount_paid := some 200 }).total_amount <
      (updateInvoiceWithItems baseInvoice
        { status := some InvoiceStatus.PAID, amount_paid := some 200 }).amount_paid := by
  have hps : (updateInvoiceWithItems baseInvoice
      { status := some InvoiceStatus.PAID, amount_paid := some 200 }) =
      { updateFinancialPass baseInvoice
          { status := some InvoiceStatus.PAID, amount_paid := some 200 } with
        status := InvoiceStatus.PAID, amount_paid := 200 } := by
    unfold updateInvoiceWithItems reconcileStatusAndAmountPaid
    norm_num
  have htot : (updateFinancialPass baseInvoice
      { status := some InvoiceStatus.PAID, amount_paid := some 200 }).total_amount = 100 :=
    baseInvoice_financial_pass_total _ rfl rfl rfl
  rw [hps]
  refine ⟨rfl, htot, rfl, ?_⟩
  show (updateFinancialPass baseInvoice
    { status := some InvoiceStatus.PAID, amount_paid := some 200 }).total_amount < 200
  rw [htot]
  norm_num

/-- Claim C4: (amended).  `update_invoice_with_items` never clamps
`amount_paid`: whenever the payload supplies `amount_paid` it is stored
verbatim, even when it exceeds the recomputed total and the invoice ends
PAID; the committed `amount_paid` equals `total_amount` only in the case
where `status = PAID` is requested without an `amount_paid` (then the
total is used as the default). -/
theorem C4_amended_no_clamp (inv : Invoice) (patch : InvoiceUpdate) :
    (patch.status = some InvoiceStatus.PAID → patch.amount_paid = none →
      (updateInvoiceWithItems inv patch).amount_paid =
        (updateInvoiceWithItems inv patch).total_amount) ∧
    (∀ a, patch.amount_paid = some a →
      (updateInvoiceWithItems inv patch).amount_paid = a) := by
  constructor
  · intro hs ha
    unfold updateInvoiceWithItems
    rw [hs, ha]
    unfold reconcileStatusAndAmountPaid
    simp
  · intro a ha
    unfold updateInvoiceWithItems
    rw [ha]
    unfold reconcileStatusAndAmountPaid
    cases patch.status with
    | none =>
      dsimp only
      split_ifs <;> rfl
    | some st =>
      dsimp only

/-- Witness for C4 (amended): requesting PAID on `baseInvoice` without an
amount defaults `amount_paid` to the recomputed total, and supplying 200
stores 200 verbatim. -/
theorem C4_amended_no_clamp_witness :
    (updateInvoiceWithItems baseInvoice
      { status := some InvoiceStatus.PAID }).amount_paid =
      (updateInvoiceWithItems baseInvoice
        { status := some InvoiceStatus.PAID }).total_amount ∧
    (updateInvoiceWithItems baseInvoice
      { status := some InvoiceStatus.PAID, amount_paid := some 200 }).amount_paid = 200 :=
  ⟨(C4_amended_no_clamp baseInvoice { status := some InvoiceStatus.PAID }).1 rfl rfl,
    (C4_amended_no_clamp baseInvoice
      { status := some InvoiceStatus.PAID, amount_paid := some 200 }).2 200 rfl⟩

theorem pass_subtotal (inv : Invoice) (p : InvoiceUpdate) :
    (updateFinancialPass inv p).subtotal_amount =
      (calculateInvoiceFinancials (resolvedLineItems inv p)
        (p.tax_percentage.getD inv.tax_percentage)
        (p.discount_percentage.getD inv.discount_percentage)).subtotal := by
  rcases h : p.line_items with _ | l <;>
    simp [updateFinancialPass, applyHeaderPatch, resolvedLineItems, h]

theorem pass_total (inv : Invoice) (p : InvoiceUpdate) :
    (updateFinancialPass inv p).total_amount =
      (calculateInvoiceFinancials (resolvedLineItems inv p)
        (p.tax_percentage.getD inv.tax_percentage)
        (p.discount_percentage.getD inv.discount_percentage)).total := by
  rcases h : p.line_items with _ | l <;>
    simp [updateFinancialPass, applyHeaderPatch, resolvedLineItems, h]

theorem pass_tax_amount (inv : Invoice) (p : InvoiceUpdate) :
    (updateFinancialPass inv p).tax_amount =
      (if (p.tax_percentage.getD inv.tax_percentage).isSome then
        (calculateInvoiceFinancials (resolvedLineItems inv p)
          (p.tax_percentage.getD inv.tax_percentage)
          (p.discount_percentage.getD inv.discount_percentage)).tax_amount
      else p.tax_amount.getD inv.tax_amount) := by
  rcases h : p.line_items with _ | l <;>
    rcases ht : p.tax_amount with _ | v <;>
    simp [updateFinancialPass, applyHeaderPatch, resolvedLineItems, h, ht]

theorem pass_discount_amount (inv : Invoice) (p : InvoiceUpdate) :
    (updateFinancialPass inv p).discount_amount =
      (if (p.discount_percentage.getD inv.discount_percentage).isSome then
        (calculateInvoiceFinancials (resolvedLineItems inv p)
          (p.tax_percentage.getD inv.tax_percentage)
          (p.discount_percentage.getD inv.discount_percentage)).discount_amount
      else p.discount_amount.getD inv.discount_amount) := by
  rcases h : p.line_items with _ | l <;>
    rcases hd : p.discount_amount with _ | v <;>
    simp [updateFinancialPass, applyHeaderPatch, resolvedLineItems, h, hd]

theorem pass_line_items_some (inv : Invoice) (p : InvoiceUpdate)
    (l : List InvoiceItemCreate) (h : p.line_items = some l) :
    (updateFinancialPass inv p).line_items = l.map itemCreateToOrm := by
  simp [updateFinancialPass, applyHeaderPatch, h]

theorem pass_line_items_none (inv : Invoice) (p : InvoiceUpdate)
    (h : p.line_items = none) :
    (updateFinancialPass inv p).line_items = inv.line_items := by
  simp [updateFinancialPass, applyHeaderPatch, h]

/-- A creation payload supplying a client `tax_amount` of 999 with no
`tax_percentage`, over a single 100-per-unit line item. -/
def c5Create : InvoiceCreate :=
  { invoice_number := "INV-2", invoice_date := 100,
    tax_percentage := none, tax_amount := some 999,
    organization_id := 1, customer_id := 1,
    line_items := [ormToItemCreate baseItem] }

/-- Claim C5: (counterexample).  The claim says the four financial fields are
always recomputed and client-supplied values are never stored, including
when `taxPercentage` is absent.  But `create_invoice_with_items`
(crud_invoice.py line 132) stores the client's `tax_amount` whenever
`tax_percentage is None`: creating `c5Create` commits `tax_amount = 999`,
while the recomputed (derived) tax amount for those inputs is 0. -/
theorem C5_counterexample :
    (createInvoiceWithItems c5Create 1).tax_amount = 999 ∧
    (calculateInvoiceFinancials c5Create.line_items c5Create.tax_percentage
      c5Create.discount_percentage).tax_amount = 0 := by
  constructor
  · simp [createInvoiceWithItems, c5Create]
  · rw [show c5Create.tax_percentage = none from rfl]
    exact fin_tax_none _ _

/-- Claim C5: (amended).  `subtotalAmount` and `totalAmount` are always
recomputed on create and update.  `taxAmount` (resp. `discountAmount`) is
recomputed only when the corresponding percentage is present after the
operation; when the percentage is absent, the client-supplied amount is
stored instead (defaulting to 0 on create, and to the previous stored
amount on update). -/
theorem C5_amended_derived_fields (invoice_in : InvoiceCreate) (owner_id : Nat)
    (inv : Invoice) (patch : InvoiceUpdate) :
    (createInvoiceWithItems invoice_in owner_id).subtotal_amount =
      (calculateInvoiceFinancials invoice_in.line_items invoice_in.tax_percentage
        invoice_in.discount_percentage).subtotal ∧
    (createInvoiceWithItems invoice_in owner_id).total_amount =
      (calculateInvoiceFinancials invoice_in.line_items invoice_in.tax_percentage
        invoice_in.discount_percentage).total ∧
    (invoice_in.tax_percentage.isSome →
      (createInvoiceWithItems invoice_in owner_id).tax_amount =
        (calculateInvoiceFinancials invoice_in.line_items invoice_in.tax_percentage
          invoice_in.discount_percentage).tax_amount) ∧
    (invoice_in.tax_percentage = none →
      (createInvoiceWithItems invoice_in owner_id).tax_amount =
        invoice_in.tax_amount.getD 0) ∧
    (invoice_in.discount_percentage.isSome →
      (createInvoiceWithItems invoice_in owner_id).discount_amount =
        (calculateInvoiceFinancials invoice_in.line_items invoice_in.tax_percentage
          invoice_in.discount_percentage).discount_amount) ∧
    (invoice_in.discount_percentage = none →
      (createInvoiceWithItems invoice_in owner_id).discount_amount =
        invoice_in.discount_amount.getD 0) ∧
    (updateInvoiceWithItems inv patch).subtotal_amount =
      (calculateInvoiceFinancials (resolvedLineItems inv patch)
        (patch.tax_percentage.getD inv.tax_percentage)
        (patch.discount_percentage.getD inv.discount_percentage)).subtotal ∧
    (updateInvoiceWithItems inv patch).total_amount =
      (calculateInvoiceFinancials (resolvedLineItems inv patch)
        (patch.tax_percentage.getD inv.tax_percentage)
        (patch.discount_percentage.getD inv.discount_percentage)).total ∧
    ((patch.tax_percentage.getD inv.tax_percentage).isSome →
      (updateInvoiceWithItems inv patch).tax_amount =
        (calculateInvoiceFinancials (resolvedLineItems inv patch)
          (patch.tax_percentage.getD inv.tax_percentage)
          (patch.discount_percentage.getD inv.discount_percentage)).tax_amount) ∧
    (patch.tax_percentage.getD inv.tax_percentage = none →
      (updateInvoiceWithItems inv patch).tax_amount =
        patch.tax_amount.getD inv.tax_amount) ∧
    ((patch.discount_percentage.getD inv.discount_percentage).isSome →
      (updateInvoiceWithItems inv patch).discount_amount =
        (calculateInvoiceFinancials (resolvedLineItems inv patch)
          (patch.tax_percentage.getD inv.tax_percentage)
          (patch.discount_percentage.getD inv.discount_percentage)).discount_amount) ∧
    (patch.discount_percentage.getD inv.discount_percentage = none →
      (updateInvoiceWithItems inv patch).discount_amount =
        patch.discount_amount.getD inv.discount_amount) := by
  have hub : ∀ fld : Invoice → ℚ,
      (∀ os i rap rs, fld (reconcileStatusAndAmountPaid os i rap rs) = fld i) →
      fld (updateInvoiceWithItems inv patch) = fld (updateFinancialPass inv patch) := by
    intro fld hfld
    unfold updateInvoiceWithItems
    exact hfld _ _ _ _
  have hsub := hub Invoice.subtotal_amount
    (fun os i rap rs => (reconcile_preserves os i rap rs).2.1)
  have htot := hub Invoice.total_amount
    (fun os i rap rs => (reconcile_preserves os i rap rs).1)
  have htax := hub Invoice.tax_amount
    (fun os i rap rs => (reconcile_preserves os i rap rs).2.2.1)
  have hdisc := hub Invoice.discount_amount
    (fun os i rap rs => (reconcile_preserves os i rap rs).2.2.2.1)
  refine ⟨rfl, rfl, ?_, ?_, ?_, ?_, ?_, ?_, ?_, ?_, ?_, ?_⟩
  · intro h
    simp [createInvoiceWithItems, h]
  · intro h
    simp [createInvoiceWithItems, h]
  · intro h
    simp [createInvoiceWithItems, h]
  · intro h
    simp [createInvoiceWithItems, h]
  · rw [hsub, pass_subtotal]
  · rw [htot, pass_total]
  · intro h
    rw [htax, pass_tax_amount, if_pos h]
  · intro h
    rw [htax, pass_tax_amount, if_neg (by simp [h])]
  · intro h
    rw [hdisc, pass_discount_amount, if_pos h]
  · intro h
    rw [hdisc, pass_discount_amount, if_neg (by simp [h])]

/-- Witness for C5 (amended): on `c5Create` (no tax percentage) the
stored tax amount is the client's 999, and the stored subtotal is the
recomputed one. -/
theorem C5_amended_derived_fields_witness :
    (createInvoiceWithItems c5Create 1).tax_amount = 999 ∧
    (createInvoiceWithItems c5Create 1).subtotal_amount =
      (calculateInvoiceFinancials c5Create.line_items c5Create.tax_percentage
        c5Create.discount_percentage).subtotal := by
  refine ⟨?_, (C5_amended_derived_fields c5Create 1 baseInvoice {}).1⟩
  have h := (C5_amended_derived_fields c5Create 1 baseInvoice {}).2.2.2.1 rfl
  simpa using h

theorem pass_tax_percentage (inv : Invoice) (p : InvoiceUpdate) :
    (updateFinancialPass inv p).tax_percentage =
      p.tax_percentage.getD inv.tax_percentage := by
  rcases h : p.line_items with _ | l <;>
    simp [updateFinancialPass, applyHeaderPatch, h]

theorem pass_discount_percentage (inv : Invoice) (p : InvoiceUpdate) :
    (updateFinancialPass inv p).discount_percentage =
      p.discount_percentage.getD inv.discount_percentage := by
  rcases h : p.line_items with _ | l <;>
    simp [updateFinancialPass, applyHeaderPatch, h]

/-- Claim C6:.  `update_invoice_with_items`: when `line_items` is explicitly
provided (even `[]`) the whole collection is replaced by freshly
constructed rows, each with its `line_total` recomputed; when absent the
existing rows are retained and re-read (as `InvoiceItemCreate`) to feed
the aggregator; in both cases subtotal and total are recomputed from the
resolved line-item set using the patched (current) tax and discount
percentages, which are also what the committed row carries. -/
theorem C6_update_resolves_line_items (inv : Invoice) (patch : InvoiceUpdate) :
    (∀ new_items, patch.line_items = some new_items →
      (updateInvoiceWithItems inv patch).line_items = new_items.map itemCreateToOrm ∧
      (∀ c ∈ new_items, (itemCreateToOrm c).line_total = calculateLineItemTotal c) ∧
      resolvedLineItems inv patch = new_items) ∧
    (patch.line_items = none →
      (updateInvoiceWithItems inv patch).line_items = inv.line_items ∧
      resolvedLineItems inv patch = inv.line_items.map ormToItemCreate) ∧
    (updateInvoiceWithItems inv patch).subtotal_amount =
      (calculateInvoiceFinancials (resolvedLineItems inv patch)
        (patch.tax_percentage.getD inv.tax_percentage)
        (patch.discount_percentage.getD inv.discount_percentage)).subtotal ∧
    (updateInvoiceWithItems inv patch).total_amount =
      (calculateInvoiceFinancials (resolvedLineItems inv patch)
        (patch.tax_percentage.getD inv.tax_percentage)
        (patch.discount_percentage.getD inv.discount_percentage)).total ∧
    (updateInvoiceWithItems inv patch).tax_percentage =
      patch.tax_percentage.getD inv.tax_percentage ∧
    (updateInvoiceWithItems inv patch).discount_percentage =
      patch.discount_percentage.getD inv.discount_percentage := by
  have hli : (updateInvoiceWithItems inv patch).line_items =
      (updateFinancialPass inv patch).line_items := by
    unfold updateInvoiceWithItems
    exact (reconcile_preserves _ _ _ _).2.2.2.2.1
  have hsub : (updateInvoiceWithItems inv patch).subtotal_amount =
      (updateFinancialPass inv patch).subtotal_amount := by
    unfold updateInvoiceWithItems
    exact (reconcile_preserves _ _ _ _).2.1
  have htot : (updateInvoiceWithItems inv patch).total_amount =
      (updateFinancialPass inv patch).total_amount := by
    unfold updateInvoiceWithItems
    exact (reconcile_preserves _ _ _ _).1
  have htp : (updateInvoiceWithItems inv patch).tax_percentage =
      (updateFinancialPass inv patch).tax_percentage := by
    unfold updateInvoiceWithItems
    exact (reconcile_preserves _ _ _ _).2.2.2.2.2.1
  have hdp : (updateInvoiceWithItems inv patch).discount_percentage =
      (updateFinancialPass inv patch).discount_percentage := by
    unfold updateInvoiceWithItems
    exact (reconcile_preserves _ _ _ _).2.2.2.2.2.2
  refine ⟨?_, ?_, ?_, ?_, ?_, ?_⟩
  · intro new_items h
    refine ⟨?_, ?_, ?_⟩
    · rw [hli, pass_line_items_some inv patch new_items h]
    · intro c hc
      rfl
    · simp [resolvedLineItems, h]
  · intro h
    refine ⟨?_, ?_⟩
    · rw [hli, pass_line_items_none inv patch h]
    · simp [resolvedLineItems, h]
  · rw [hsub, pass_subtotal]
  · rw [htot, pass_total]
  · rw [htp, pass_tax_percentage]
  · rw [hdp, pass_discount_percentage]

/-- Witness for C6: replacing `baseInvoice`'s items with an explicit
empty list empties the collection; an empty patch keeps the stored
item. -/
theorem C6_update_resolves_line_items_witness :
    (updateInvoiceWithItems baseInvoice { line_items := some [] }).line_items = [] ∧
    (updateInvoiceWithItems baseInvoice {}).line_items = [baseItem] :=
  ⟨by simpa using
      ((C6_update_resolves_line_items baseInvoice { line_items := some [] }).1 [] rfl).1,
    ((C6_update_resolves_line_items baseInvoice {}).2.1 rfl).1⟩

/-- Claim C7: (counterexample).  The claim says every line-item mutation
whose parent invoice cannot be found fails with NotFoundError and commits
nothing.  `delete_invoice_line_item` (crud_invoice.py lines 386–389) does
the opposite when the parent is missing: it **commits the deletion** and
returns the item without raising. -/
theorem C7_counterexample :
    deleteInvoiceLineItem none baseItem =
      Except.ok ⟨baseItem, none⟩ ∧
    deleteInvoiceLineItem none baseItem ≠ Except.error CrudError.notFound := by
  refine ⟨rfl, ?_⟩
  simp [deleteInvoiceLineItem]

/-- Claim C7: (amended).  With a missing parent invoice, `addLineItem` and
`updateLineItem` fail with NotFoundError before committing anything, but
`deleteLineItem` commits the deletion of the line item and returns it
normally (no error, no parent recomputation). -/
theorem C7_amended_parent_missing (item_in : InvoiceItemCreate)
    (li : InvoiceItem) (u : InvoiceItemUpdate) :
    addLineItemToInvoice none item_in = Except.error CrudError.notFound ∧
    updateInvoiceLineItem none li u = Except.error CrudError.notFound ∧
    deleteInvoiceLineItem none li = Except.ok ⟨li, none⟩ :=
  ⟨rfl, rfl, rfl⟩

/-- A Pro Forma invoice over `baseItem` (invoice date 100). -/
def proFormaInvoice : Invoice :=
  { baseInvoice with
    invoice_number := "PF-1",
    invoice_type := InvoiceType.PRO_FORMA }

/-- Claim C8:.  `transform_pro_forma_to_commercial` rejects any source whose
type is not PRO_FORMA; on success it returns the source unchanged
together with a new invoice with status DRAFT, type COMMERCIAL, the
caller-supplied number (Python truthiness: a non-empty string) or
`<original>-COMM` as fallback, and line items whose quantities and prices
are identical to the source's. -/
theorem C8_transform_invariants (pf : Invoice) (nn : Option String) (today : Nat) :
    (pf.invoice_type ≠ InvoiceType.PRO_FORMA →
      transformProFormaToCommercial pf nn today =
        Except.error CrudError.invalidOperation) ∧
    (pf.invoice_type = InvoiceType.PRO_FORMA →
      (transformProFormaToCommercial pf nn today).isOk = true) ∧
    (∀ src ni, transformProFormaToCommercial pf nn today = Except.ok (src, ni) →
      src = pf ∧
      ni.status = InvoiceStatus.DRAFT ∧
      ni.invoice_type = InvoiceType.COMMERCIAL ∧
      (∀ s, nn = some s → s ≠ "" → ni.invoice_number = s) ∧
      (nn = none → ni.invoice_number = pf.invoice_number ++ "-COMM") ∧
      ni.line_items.map (fun li => (li.quantity_cartons, li.quantity_units, li.price)) =
        pf.line_items.map (fun li => (li.quantity_cartons, li.quantity_units, li.price))) := by
  refine ⟨?_, ?_, ?_⟩
  · intro h
    unfold transformProFormaToCommercial
    rw [if_pos h]
  · intro h
    unfold transformProFormaToCommercial
    rw [if_neg (by simp [h])]
    rfl
  · intro src ni h
    unfold transformProFormaToCommercial at h
    split_ifs at h with hty
    rw [Except.ok.injEq, Prod.mk.injEq] at h
    obtain ⟨h1, h2⟩ := h
    subst h1
    subst h2
    refine ⟨rfl, rfl, rfl, ?_, ?_, ?_⟩
    · rintro s rfl hs
      simp [createInvoiceWithItems, hs]
    · rintro rfl
      rfl
    · show ((pf.line_items.map ormToItemCreate).map itemCreateToOrm).map
          (fun li => (li.quantity_cartons, li.quantity_units, li.price)) =
        pf.line_items.map (fun li => (li.quantity_cartons, li.quantity_units, li.price))
      rw [List.map_map, List.map_map]
      exact List.map_congr_left fun a ha => rfl

/-- Witness for C8: transforming the Pro Forma fixture succeeds, and
transforming a COMMERCIAL source is rejected with
InvalidOperationError. -/
theorem C8_transform_invariants_witness :
    (transformProFormaToCommercial proFormaInvoice none 200).isOk = true ∧
    transformProFormaToCommercial baseInvoice none 200 =
      Except.error CrudError.invalidOperation :=
  ⟨(C8_transform_invariants proFormaInvoice none 200).2.1 (by rfl),
    (C8_transform_invariants baseInvoice none 200).1 (by
      show baseInvoice.invoice_type ≠ InvoiceType.PRO_FORMA
      simp [baseInvoice])⟩

theorem calculateLineItemTotal_price_zero (c : InvoiceItemCreate)
    (h : c.price = 0) : calculateLineItemTotal c = 0 := by
  simp only [calculateLineItemTotal, h, zero_mul, round2_zero]

/-- Claim C10:.  Every successful `transform_pro_forma_to_commercial` stamps
the new Commercial invoice with the current date (`date.today()`) —
not the source's `invoice_date` — while `due_date` is carried over from
the source. -/
theorem C10_transform_dates (pf : Invoice) (nn : Option String) (today : Nat) :
    ∀ src ni, transformProFormaToCommercial pf nn today = Except.ok (src, ni) →
      ni.invoice_date = today ∧ ni.due_date = pf.due_date := by
  intro src ni h
  unfold transformProFormaToCommercial at h
  split_ifs at h with hty
  rw [Except.ok.injEq, Prod.mk.injEq] at h
  obtain ⟨h1, h2⟩ := h
  subst h2
  exact ⟨rfl, rfl⟩

/-- Witness for C10: transforming the Pro Forma fixture (invoice date
100) on day 200 yields a commercial invoice dated 200, not 100. -/
theorem C10_transform_dates_witness :
    (transformProFormaToCommercial proFormaInvoice none 200).toOption.map
      (fun p => p.2.invoice_date) = some 200 ∧
    proFormaInvoice.invoice_date = 100 := by
  refine ⟨?_, rfl⟩
  have hd := C10_transform_dates proFormaInvoice none 200 _ _ rfl
  exact congrArg some hd.1

/-- Claim C9:.  `generate_packing_list_from_invoice` rejects a source whose
type is not COMMERCIAL with InvalidOperationError; on success every line
item of the produced Packing List has `price = 0` and `line_total = 0`
regardless of the source prices, all financial fields of the produced
invoice are zero, and the number defaults to `PL-<original number>` when
none is supplied.  (The generator itself is modelled from spec §4.5, its
definition being absent from the sources.) -/
theorem C9_packing_list_zeroing (ci : Invoice) (nn : Option String) (today : Nat) :
    (ci.invoice_type ≠ InvoiceType.COMMERCIAL →
      generatePackingListFromInvoice (some ci) nn today =
        Except.error CrudError.invalidOperation) ∧
    (ci.invoice_type = InvoiceType.COMMERCIAL →
      (generatePackingListFromInvoice (some ci) nn today).isOk = true) ∧
    (∀ r, generatePackingListFromInvoice (some ci) nn today = Except.ok r →
      (∀ li ∈ r.line_items, li.price = 0 ∧ li.line_total = 0) ∧
      r.subtotal_amount = 0 ∧ r.tax_amount = 0 ∧ r.discount_amount = 0 ∧
      r.total_amount = 0 ∧ r.amount_paid = 0 ∧
      (nn = none → r.invoice_number = "PL-" ++ ci.invoice_number)) := by
  refine ⟨?_, ?_, ?_⟩
  · intro h
    unfold generatePackingListFromInvoice
    dsimp only
    rw [if_pos h]
  · intro h
    unfold generatePackingListFromInvoice
    dsimp only
    rw [if_neg (by simp [h])]
    rfl
  · intro r h
    unfold generatePackingListFromInvoice at h
    dsimp only at h
    split_ifs at h with hty
    rw [Except.ok.injEq] at h
    subst h
    have hsum : ((ci.line_items.map
        (fun li => ({ ormToItemCreate li with price := 0 } : InvoiceItemCreate))).map
          calculateLineItemTotal).sum = 0 := by
      apply List.sum_eq_zero
      intro x hx
      rcases List.mem_map.mp hx with ⟨c, hc, rfl⟩
      rcases List.mem_map.mp hc with ⟨li0, -, rfl⟩
      exact calculateLineItemTotal_price_zero _ rfl
    have hS : (calculateInvoiceFinancials
        (ci.line_items.map (fun li => ({ ormToItemCreate li with price := 0 } : InvoiceItemCreate)))
        (some 0) (some 0)).subtotal = 0 := by
      rw [fin_subtotal, hsum, round2_zero]
    have hT : (calculateInvoiceFinancials
        (ci.line_items.map (fun li => ({ ormToItemCreate li with price := 0 } : InvoiceItemCreate)))
        (some 0) (some 0)).tax_amount = 0 := by
      rw [fin_tax_some]
      simp
    have hD : (calculateInvoiceFinancials
        (ci.line_items.map (fun li => ({ ormToItemCreate li with price := 0 } : InvoiceItemCreate)))
        (some 0) (some 0)).discount_amount = 0 := by
      rw [fin_disc_some, hS]
      simp
    have hTot : (calculateInvoiceFinancials
        (ci.line_items.map (fun li => ({ ormToItemCreate li with price := 0 } : InvoiceItemCreate)))
        (some 0) (some 0)).total = 0 := by
      rw [fin_total, hS, hT, hD]
      simp [round2_zero]
    refine ⟨?_, hS, hT, hD, hTot, rfl, ?_⟩
    · intro li hli
      have hmem : li ∈ (ci.line_items.map
          (fun li0 => ({ ormToItemCreate li0 with price := 0 } : InvoiceItemCreate))).map
            itemCreateToOrm := hli
      rcases List.mem_map.mp hmem with ⟨c, hc, rfl⟩
      rcases List.mem_map.mp hc with ⟨li0, -, rfl⟩
      exact ⟨rfl, calculateLineItemTotal_price_zero _ rfl⟩
    · rintro rfl
      rfl

/-- Witness for C9: a packing list generated from `baseInvoice`
(commercial, item priced 100) has zero total and number `PL-INV-1`. -/
theorem C9_packing_list_zeroing_witness :
    (generatePackingListFromInvoice (some baseInvoice) none 300).isOk = true ∧
    (createPackingListFromCommercial baseInvoice none 300).total_amount = 0 ∧
    (createPackingListFromCommercial baseInvoice none 300).invoice_number = "PL-INV-1" := by
  have h := C9_packing_list_zeroing baseInvoice none 300
  have h3 := h.2.2 (createPackingListFromCommercial baseInvoice none 300) (by rfl)
  refine ⟨h.2.1 (by rfl), h3.2.2.2.2.1, ?_⟩
  have hn := h3.2.2.2.2.2.2 rfl
  rw [hn]
  rfl

end DadsInvoice
